import Mathlib

/-!
Verification development for the openstage-lv catalog ingestion providers.

The repository contains three Backstage entity providers:
* a dataset-grained `DataGovLvProvider` (source file `src/unnamed/part_002`)
  that builds one Group, one Component and one Api per resource for every
  accepted dataset, publishes a Delta mutation per dataset and one
  terminating Full mutation;
* a resource-grained `DataGovLvProvider`
  (`src/plugins/catalog-backend-module-data-gov-lv/src/datagovlv-provider.ts`)
  that builds a System, a Group, one Component per resource and one Api per
  resource, publishing a single Full mutation;
* an `ApiVissGovLvProvider`
  (`src/plugins/catalog-backend-module-api-viss-gov-lv/src/apivissgovlv-provider.ts`).

The Lean development below is a shallow embedding of these providers.
Network effects (fetch, datastore probe, csv parsing by the `csv-parse`
library, `json-schema-generator`, text decoding) are modelled as explicit
oracle parameters; promise rejection is modelled with `Except`.  Entity
records project the fields the claims reason about (apiVersion, kind,
metadata name/title/description/tags, spec type/lifecycle/owner/definition/
providesApis/system/startsWithBom/charset); label, link and provenance
fields of the source are orthogonal to every claim and are not carried.
-/

namespace OpenstageLv

/-- Result of a schema probe, mirroring the `SchemaInfo` type of
`src/unnamed/part_002` (`type`, `definition`, optional `hasBom`, optional
`charset`; the optional fields model the `?:` fields of the TS type, absent
= `none`). -/
structure SchemaInfo where
  type : String
  definition : String
  hasBom : Option Bool := none
  charset : Option String := none
deriving DecidableEq, Repr

/-- Projection of Backstage entity metadata onto the fields the claims
mention.  Optional fields model properties that some builders leave out. -/
structure EntityMeta where
  name : String
  title : Option String := none
  description : Option String := none
  tags : Option (List String) := none
deriving DecidableEq, Repr

/-- Projection of the entity `spec` payload onto the fields the claims
mention. -/
structure EntitySpec where
  type : Option String := none
  lifecycle : Option String := none
  owner : Option String := none
  definition : Option String := none
  providesApis : Option (List String) := none
  system : Option String := none
  startsWithBom : Option Bool := none
  charset : Option String := none
deriving DecidableEq, Repr

/-- A catalog entity (Group, System, Component or API). -/
structure Entity where
  apiVersion : String
  kind : String
  metadata : EntityMeta
  spec : EntitySpec
deriving DecidableEq, Repr

/-- A mutation sent to the host catalog through `applyMutation`: either a
delta (the providers always send `removed: []`, so only `added` is carried)
or a full replacement.  Each entity is paired with its location key. -/
inductive Mutation where
  | delta (added : List (Entity × String))
  | full (entities : List (Entity × String))
deriving DecidableEq, Repr

/-- JavaScript `String.prototype.endsWith`, as a structural function on the
character data of the two strings (kernel-reducible, unlike the iterator
based core library version). -/
def jsEndsWith (s suffix : String) : Bool :=
  suffix.data.isSuffixOf s.data

/-- JavaScript `String.prototype.toLowerCase` restricted to the basic-latin
range, as a total Lean function on the character data of a string. -/
def jsToLowerCase (s : String) : String :=
  ⟨s.data.map Char.toLower⟩

/-- One step of JavaScript `Set` insertion: keep the accumulator if the
element was already seen, otherwise append it (first occurrence wins). -/
def insertDedup (seen : List String) (x : String) : List String :=
  if x ∈ seen then seen else seen ++ [x]

/-- JavaScript `[...new Set(xs)]`: deduplicate preserving first-occurrence
order. -/
def jsSetDedup (xs : List String) : List String :=
  xs.foldl insertDedup []

/-- JavaScript `Promise.all` over already-settled results: succeeds with the
list of values when every element succeeded, otherwise rejects; the
rejection value is modelled as the first failing element in list order. -/
def promiseAll {α : Type} : List (Except String α) → Except String (List α)
  | [] => .ok []
  | .error e :: _ => .error e
  | .ok a :: rest => (promiseAll rest).map (a :: ·)

/-- One element of a dataset's `tags` array (`{name: string}`). -/
structure TagRec where
  name : String
deriving DecidableEq, Repr

/-- The `organization` object of a package_show record (fields used by the
builders). -/
structure Organization where
  name : String
  title : String
  description : String
  image_url : String
  is_organization : Bool
deriving DecidableEq, Repr

/-- One element of a dataset's `resources` array (fields used by the
builders). -/
structure Resource where
  id : String
  name : String
  url : String
  format : String
  description : String
  state : String
deriving DecidableEq, Repr

/-- The `result` payload of a package_show response (fields used by the
builders). -/
structure DatasetResult where
  name : String
  title : String
  notes : String
  type : String
  state : String
  maintainer_email : String
  organization : Organization
  tags : List TagRec
  resources : List Resource
deriving DecidableEq, Repr

/-- A fetched package_show response: the code accesses `dataset.result`
everywhere. -/
structure DatasetShow where
  result : DatasetResult
deriving DecidableEq, Repr

namespace DatasetGrained

/-- Embedding of `tryResourceUrl` of `src/unnamed/part_002` (lines 158-187).
The `.json` and `.csv` branches return `{type: "solved", definition:
"enable"}` on their first statement; the `return this.tryResourceJsonUrl(url)`
and `return this.tryResourceCsvUrl(url)` statements that follow them in the
source are unreachable dead code and therefore do not appear in the
embedding.  `geojsonText` is the body fetched from
`https://geojson.org/schema/GeoJSON.json`. -/
def tryResourceUrl (geojsonText : String) (url : String) : Option SchemaInfo :=
  if jsEndsWith url ".json" then
    some { type := "solved", definition := "enable" }
  else if jsEndsWith url ".csv" then
    some { type := "solved", definition := "enable" }
  else if jsEndsWith url ".xml" then
    some { type := "xml", definition := "xml" }
  else if jsEndsWith url ".geojson" then
    some { type := "json-schema", definition := geojsonText }
  else
    none

end DatasetGrained

namespace DatasetGrained

/-- One delimiter/quote-mode combination of the CSV sniffing loop
(`tryOptions` in the source). -/
structure TryOpts where
  delimiter : String
  relax_quotes : Bool
deriving DecidableEq, Repr

/-- The eight combinations tried by `tryResourceCsvUrl`
(`src/unnamed/part_002` lines 205-215), in source order. -/
def tryOptionsList : List TryOpts :=
  [ { delimiter := ";", relax_quotes := false },
    { delimiter := ",", relax_quotes := false },
    { delimiter := "|", relax_quotes := false },
    { delimiter := "\t", relax_quotes := false },
    { delimiter := ";", relax_quotes := true },
    { delimiter := ",", relax_quotes := true },
    { delimiter := "|", relax_quotes := true },
    { delimiter := "\t", relax_quotes := true } ]

/-- A cell of the sample data row as produced by `csv-parse` with
`cast: true`: an integral number (JS `Number.isInteger` true), a
non-integral number (carried opaquely by its literal), or a string. -/
inductive CsvCell where
  | intVal (n : Int)
  | numVal (lit : String)
  | strVal (s : String)
deriving DecidableEq, Repr

/-- Field type inferred from the sample row at a column index, mirroring
lines 236-239 of the source: no sample row or out-of-range index (JS
`undefined`) gives `"string"`; an integral number gives `"long"`; any other
number gives `"double"`; anything else gives `"string"`. -/
def cellType (row : Option (List CsvCell)) (index : Nat) : String :=
  match row with
  | none => "string"
  | some r =>
    match r.get? index with
    | some (.intVal _) => "long"
    | some (.numVal _) => "double"
    | _ => "string"

/-- A field of the synthesized record schema. -/
structure Field where
  name : String
  type : String
deriving DecidableEq, Repr

/-- Oracle for one `parse(text, {...tryOptions, to: 2, cast: true, ...})`
call of the `csv-parse` library on the fixed fetched text: `none` when the
call throws (including the empty-records case, where destructuring
`[headers, row]` makes `headers.length` throw); otherwise the header record
and the optional sample data row. -/
def CsvParseOracle : Type :=
  TryOpts → Option (List String × Option (List CsvCell))

/-- The header/sample-row pair turned into typed fields, mirroring
`headers.map((header, index) => ...)` of the source. -/
def typedFields (headers : List String) (row : Option (List CsvCell)) : List Field :=
  headers.enum.map (fun p => { name := p.2, type := cellType row p.1 })

/-- The sniffing loop of `tryResourceCsvUrl` (lines 202-247): walk the
remaining combinations carrying the current `(delimiter, fields)` state; a
throwing parse is skipped; a one-column parse stores the single-field
fallback (`delimiter = "unknown"`) and continues; any other successful
parse returns that combination's delimiter, the typed fields and
`foundOk = true`; falling off the end returns the carried state with
`foundOk = false`. -/
def sniffLoop (parse : CsvParseOracle) :
    List TryOpts → String × List Field → String × List Field × Bool
  | [], st => (st.1, st.2, false)
  | o :: rest, st =>
    match parse o with
    | none => sniffLoop parse rest st
    | some (headers, row) =>
      match headers with
      | [h] => sniffLoop parse rest ("unknown", [{ name := h, type := "string" }])
      | _ => (o.delimiter, typedFields headers row, true)

/-- The whole sniff: all eight combinations starting from the initial state
`delimiter = ","`, `fields = []` of lines 202-203. -/
def csvSniff (parse : CsvParseOracle) : String × List Field × Bool :=
  sniffLoop parse tryOptionsList (",", [])

/-- Rendering of one field of the avro record (the shape passed to
`JSON.stringify`). -/
def avroFieldJson (f : Field) : String :=
  "\x7b \"name\": \"" ++ f.name ++ "\", \"type\": \"" ++ f.type ++ "\" \x7d"

/-- Rendering of the avro record schema built at lines 253-258 (delimiter
and field list). -/
def avroDefinition (delimiter : String) (fields : List Field) : String :=
  "\x7b \"type\": \"record\", \"name\": \"Row\", \"csv_delimiter\": \"" ++ delimiter
    ++ "\", \"fields\": [" ++ String.intercalate ", " (fields.map avroFieldJson) ++ "] \x7d"

/-- Embedding of `tryResourceCsvUrl` (lines 189-264): a non-200 response
yields no schema; otherwise the sniffed delimiter and fields are wrapped in
an avro-kind result. -/
def tryResourceCsvUrl (parse : CsvParseOracle) (status : Nat) : Option SchemaInfo :=
  if status ≠ 200 then none
  else
    let r := csvSniff parse
    some { type := "avro", definition := avroDefinition r.1 r.2.1 }

/-- Embedding of `tryResourceJsonUrl` (lines 266-301).  `decodeUtf16` and
`decodeUtf8` stand for the `TextDecoder` calls, `generateSchema` for
`JSON.parse` followed by `jsonSchemaGenerator` and `JSON.stringify`
(rejecting when `JSON.parse` throws); `data` is the fetched byte array. -/
def tryResourceJsonUrl (decodeUtf16 decodeUtf8 : List Nat → String)
    (generateSchema : String → Except String String)
    (status : Nat) (data : List Nat) : Except String (Option SchemaInfo) :=
  if status ≠ 200 then .ok none
  else
    let bom : Bool × String × String :=
      if data.get? 0 = some 255 ∧ data.get? 1 = some 254 then
        (true, "utf-16", decodeUtf16 (data.drop 2))
      else if data.get? 0 = some 0xef ∧ data.get? 1 = some 0xbb ∧ data.get? 2 = some 0xbf then
        (true, "utf-8-sig", decodeUtf8 (data.drop 3))
      else
        (false, "utf8", decodeUtf8 data)
    match generateSchema bom.2.2 with
    | .error e => .error e
    | .ok defn =>
      .ok (some { type := "json-schema", definition := defn,
                  hasBom := some bom.1, charset := some bom.2.1 })

/-- The per-resource schema resolution chain of `createApis` (lines
107-125): use the datastore probe when it yielded a schema, otherwise the
content probe; any rejection of either probe is caught and converted to an
error-kind result (the `JSON.stringify(reason)` definition is modelled as
the rejection string itself); a still-undefined result becomes the
unknown-kind result. -/
def resolveSchemaInfo (datastore : Except String (Option SchemaInfo))
    (contentProbe : Except String (Option SchemaInfo)) : SchemaInfo :=
  let chained : Except String (Option SchemaInfo) :=
    match datastore with
    | .ok (some s) => .ok (some s)
    | .ok none => contentProbe
    | .error e => .error e
  let caught : Option SchemaInfo :=
    match chained with
    | .ok v => v
    | .error e => some { type := "error", definition := e }
  match caught with
  | some s => s
  | none => { type := "unknown", definition := "unknown" }

/-- The BOM warning suffix appended to a resource description (line 138). -/
def bomWarning : String := "\n\n> :warning: **Datu fails satur BOM baitus!**"

/-- Embedding of `createApis` (lines 103-156): one API entity per resource.
`datastoreInfo` is the `tryDatastoreInfo` oracle keyed by resource id,
`resourceProbe` the `tryResourceUrl` oracle keyed by resource url. -/
def createApis (datastoreInfo : String → Except String (Option SchemaInfo))
    (resourceProbe : String → Except String (Option SchemaInfo))
    (dataset : DatasetShow) : List Entity :=
  dataset.result.resources.map (fun resource =>
    let schemaInfo := resolveSchemaInfo (datastoreInfo resource.id) (resourceProbe resource.url)
    { apiVersion := "backstage.io/v1beta1"
      kind := "API"
      metadata := {
        name := resource.id
        title := some (if resource.name = "" then resource.url else resource.name)
        description := some (resource.description ++
          (if schemaInfo.hasBom = some true then bomWarning else ""))
        tags := none }
      spec := {
        type := some schemaInfo.type
        lifecycle := some (if resource.state = "active" then "production" else "experimental")
        owner := some dataset.result.organization.name
        definition := some schemaInfo.definition
        startsWithBom := schemaInfo.hasBom
        charset := schemaInfo.charset
        system := some dataset.result.name } })

/-- Embedding of `createComponent` (lines 351-384): one Component per
dataset, with lowercased deduplicated tags and `providesApis` listing the
resource ids. -/
def createComponent (dataset : DatasetShow) : Entity :=
  let data := dataset.result
  { apiVersion := "backstage.io/v1beta1"
    kind := "Component"
    metadata := {
      name := data.name
      title := some data.title
      description := some data.notes
      tags := some (jsSetDedup (data.tags.map (fun tag => jsToLowerCase tag.name))) }
    spec := {
      type := some data.type
      owner := some data.organization.name
      lifecycle := some (if data.state = "active" then "production" else "experimental")
      providesApis := some (data.resources.map (fun resource => resource.id)) } }

/-- Embedding of `createOwner` (lines 386-406): the Group entity for the
dataset's organization. -/
def createOwner (dataset : DatasetShow) : Entity :=
  let org := dataset.result.organization
  { apiVersion := "backstage.io/v1beta1"
    kind := "Group"
    metadata := {
      name := org.name
      title := some org.title
      description := some org.description }
    spec := {
      type := some (if org.is_organization then "organization" else "non-organization") } }

/-- The filter of `applyDatasetEntities` (lines 63-71): only records whose
declared type is `"dataset"` are kept. -/
def acceptedDatasets (datasets : List DatasetShow) : List DatasetShow :=
  datasets.filter (fun dataset => dataset.result.type == "dataset")

/-- The entity list built for one accepted dataset (lines 72-84): the
Group, the Component, then one API per resource. -/
def datasetEntities (datastoreInfo resourceProbe : String → Except String (Option SchemaInfo))
    (dataset : DatasetShow) : List Entity :=
  createOwner dataset :: createComponent dataset ::
    createApis datastoreInfo resourceProbe dataset

/-- The flat entity list returned by `applyDatasetEntities` (lines 99-100):
per-dataset entity lists of the accepted datasets, concatenated in
discovery order. -/
def applyDatasetEntities
    (datastoreInfo resourceProbe : String → Except String (Option SchemaInfo))
    (datasets : List DatasetShow) : List Entity :=
  ((acceptedDatasets datasets).map (datasetEntities datastoreInfo resourceProbe)).flatten

/-- The provider name `datagovlv-<env>` (line 35). -/
def getProviderName (env : String) : String := "datagovlv-" ++ env

/-- The location key `<provider-name>:<env>` attached to every published
entity (lines 56 and 93). -/
def locationKey (env : String) : String := getProviderName env ++ ":" ++ env

/-- Pair every entity with the provider's location key, as both mutation
sites do. -/
def withLocation (env : String) (entities : List Entity) : List (Entity × String) :=
  entities.map (fun entity => (entity, locationKey env))

/-- The delta mutation published for one accepted dataset (lines 88-98):
its whole entity list as `added`, nothing `removed`. -/
def deltaMutation (env : String)
    (datastoreInfo resourceProbe : String → Except String (Option SchemaInfo))
    (dataset : DatasetShow) : Mutation :=
  .delta (withLocation env (datasetEntities datastoreInfo resourceProbe dataset))

/-- Embedding of `run` plus `applyDatasetEntities` (lines 42-101) as the
sequence of mutations published by one run.  `listing` is the
`getDatasetNames` outcome, `fetchDataset` the per-name detail fetch (whose
rejections are not caught in the source), and `completion` the order in
which the per-dataset pipelines complete: the source publishes each
dataset's delta when its own pipeline finishes, so the delta order is the
completion order, while `Promise.all` collects the entity lists for the
full mutation in discovery order.  Theorems constrain `completion` to be a
permutation of the accepted datasets. -/
def runMutations (env : String)
    (datastoreInfo resourceProbe : String → Except String (Option SchemaInfo))
    (listing : Except String (List String))
    (fetchDataset : String → Except String DatasetShow)
    (connected : Bool) (completion : List DatasetShow) : Except String (List Mutation) :=
  if connected = false then .error "Not initialized"
  else
    match listing with
    | .error e => .error e
    | .ok names =>
      match promiseAll (names.map fetchDataset) with
      | .error e => .error e
      | .ok datasets =>
        .ok (completion.map (deltaMutation env datastoreInfo resourceProbe)
          ++ [.full (withLocation env (applyDatasetEntities datastoreInfo resourceProbe datasets))])

end DatasetGrained

namespace ResourceGrained

/-- The per-resource schema resolution of the resource-grained provider's
`createApis` (`datagovlv-provider.ts` lines 80-88): a rejected or undefined
datastore probe becomes the unknown-kind result (rejections are caught to
`unknown` here, not to `error`). -/
def resolveSchemaInfo (datastore : Except String (Option SchemaInfo)) : SchemaInfo :=
  match datastore with
  | .ok (some s) => s
  | .ok none => { type := "unknown", definition := "unknown" }
  | .error _ => { type := "unknown", definition := "unknown" }

/-- Embedding of the resource-grained `createApis`
(`datagovlv-provider.ts` lines 76-110): one API entity per resource,
schema from the datastore probe only. -/
def createApis (datastoreInfo : String → Except String (Option SchemaInfo))
    (dataset : DatasetShow) : List Entity :=
  dataset.result.resources.map (fun resource =>
    let schemaInfo := resolveSchemaInfo (datastoreInfo resource.id)
    { apiVersion := "backstage.io/v1beta1"
      kind := "API"
      metadata := {
        name := resource.id
        title := some (if resource.name = "" then resource.url else resource.name)
        description := some resource.description
        tags := none }
      spec := {
        type := some schemaInfo.type
        lifecycle := some (if resource.state = "active" then "production" else "experimental")
        owner := some dataset.result.organization.name
        definition := some schemaInfo.definition
        system := some dataset.result.name } })

/-- Embedding of `createComponents` (`datagovlv-provider.ts` lines
156-191): one Component per resource, named by the resource id, providing
exactly that resource's API. -/
def createComponents (dataset : DatasetShow) : List Entity :=
  let data := dataset.result
  data.resources.map (fun resource =>
    { apiVersion := "backstage.io/v1beta1"
      kind := "Component"
      metadata := {
        name := resource.id
        title := some (if resource.name = "" then resource.url else resource.name)
        description := some resource.description
        tags := some (jsSetDedup (data.tags.map (fun tag => jsToLowerCase tag.name))) }
      spec := {
        type := some data.type
        lifecycle := some (if resource.state = "active" then "production" else "experimental")
        owner := some data.organization.name
        system := some data.name
        providesApis := some [resource.id] } })

/-- Embedding of `createSystem` (`datagovlv-provider.ts` lines 215-240). -/
def createSystem (dataset : DatasetShow) : Entity :=
  let data := dataset.result
  { apiVersion := "backstage.io/v1beta1"
    kind := "System"
    metadata := {
      name := data.name
      title := some data.title
      description := some data.notes
      tags := some (jsSetDedup (data.tags.map (fun tag => jsToLowerCase tag.name))) }
    spec := {
      owner := some data.organization.name } }

/-- Embedding of the resource-grained `createOwner`
(`datagovlv-provider.ts` lines 193-213). -/
def createOwner (dataset : DatasetShow) : Entity :=
  let org := dataset.result.organization
  { apiVersion := "backstage.io/v1beta1"
    kind := "Group"
    metadata := {
      name := org.name
      title := some org.title
      description := some org.description }
    spec := {
      type := some (if org.is_organization then "organization" else "non-organization") } }

end ResourceGrained

namespace ApiViss

/-- The `businessInformation` object of an api.viss.gov.lv API record. -/
structure BusinessInformation where
  businessOwner : Option String
  businessOwnerEmail : Option String
  technicalOwner : Option String
  technicalOwnerEmail : Option String
deriving DecidableEq, Repr

/-- An api.viss.gov.lv `ApiDefinition` record (fields used by the
transformers). -/
structure ApiDefinition where
  id : String
  name : String
  description : Option String
  version : String
  provider : String
  apiDefinition : String
  wsdlUri : Option String
  lifeCycleStatus : String
  type : String
  tags : List String
  avgRating : String
  businessInformation : BusinessInformation
deriving DecidableEq, Repr

/-- The `API_WSDL` base URL constant of the provider. -/
def API_WSDL : String := "https://api.viss.gov.lv"

/-- The `??` ownership fallback chain used by all three transformers:
business owner, else technical owner, else the raw provider identifier. -/
def ownerOf (api : ApiDefinition) : String :=
  api.businessInformation.businessOwner.getD
    (api.businessInformation.technicalOwner.getD api.provider)

/-- Embedding of `transformToComponent` (`apivissgovlv-provider.ts` lines
209-239): note that `tags` is taken verbatim from the upstream record. -/
def transformToComponent (api : ApiDefinition) : Entity :=
  { apiVersion := "backstage.io/v1beta1"
    kind := "Component"
    metadata := {
      name := api.name
      description := api.description
      tags := some api.tags }
    spec := {
      type := some api.type
      owner := some (ownerOf api)
      lifecycle := some (if api.lifeCycleStatus = "PUBLISHED" then "production" else "experimental")
      providesApis := some [api.name] } }

/-- Embedding of `transformToApi` (`apivissgovlv-provider.ts` lines
176-203).  The JS truthiness test on `wsdlUri` (declared `null | string`)
is modelled by `Option.isSome`. -/
def transformToApi (api : ApiDefinition) : Entity :=
  { apiVersion := "backstage.io/v1beta1"
    kind := "API"
    metadata := {
      name := api.name
      description := some ((api.description.getD "") ++
        (match api.wsdlUri with
         | some w => "\n\n!!! WSDL: " ++ (API_WSDL ++ w)
         | none => "")) }
    spec := {
      type := some (if api.wsdlUri.isSome then "WSDL" else "swagger")
      lifecycle := some (if api.lifeCycleStatus = "PUBLISHED" then "production" else "experimental")
      owner := some (ownerOf api)
      definition := some api.apiDefinition } }

/-- Embedding of `transformToGroup` (`apivissgovlv-provider.ts` lines
149-170). -/
def transformToGroup (api : ApiDefinition) : Entity :=
  { apiVersion := "backstage.io/v1beta1"
    kind := "Group"
    metadata := {
      name := ownerOf api }
    spec := {
      type := some "bureaucrat" } }

end ApiViss

/-! ## Sample data used by witnesses and counterexamples -/

/-- A sample organization record. -/
def sampleOrg : Organization :=
  { name := "org", title := "Org", description := "d", image_url := "i.png",
    is_organization := true }

/-- A sample resource record with a CSV url. -/
def sampleResource : Resource :=
  { id := "r1", name := "Resource one", url := "http://x/a.csv", format := "CSV",
    description := "desc", state := "active" }

/-- A sample accepted dataset (declared type `"dataset"`). -/
def sampleDataset : DatasetShow :=
  { result := { name := "a", title := "A", notes := "n", type := "dataset",
                state := "active", maintainer_email := "m@x",
                organization := sampleOrg,
                tags := [{ name := "Alpha" }, { name := "alpha" }],
                resources := [sampleResource] } }

/-- A sample record of a declared type other than `"dataset"` (scenario B
of the specification). -/
def harvestDataset : DatasetShow :=
  { result := { name := "b", title := "B", notes := "n", type := "harvest-source",
                state := "active", maintainer_email := "m@x",
                organization := sampleOrg, tags := [], resources := [] } }

/-- A schema oracle that always reports no schema (a 404-style probe). -/
def noSchema : String → Except String (Option SchemaInfo) := fun _ => Except.ok none

/-- A sample api.viss.gov.lv record in the PUBLISHED lifecycle state with
uppercase, duplicated upstream tags. -/
def publishedApi : ApiViss.ApiDefinition :=
  { id := "1", name := "api-one", description := some "d", version := "1.0",
    provider := "prov", apiDefinition := "swagger-doc", wsdlUri := none,
    lifeCycleStatus := "PUBLISHED", type := "HTTP",
    tags := ["Open Data", "Open Data"], avgRating := "0.0",
    businessInformation := { businessOwner := none, businessOwnerEmail := none,
                             technicalOwner := none, technicalOwnerEmail := none } }

/-! ## Claim C1: content-probe dispatch by file extension -/

/-- C1, counterexample.  The claim says the dispatcher returns a
`json-schema`-kind result for `.json` urls and an `avro`-kind result for
`.csv` urls; the code returns kind `"solved"` for both (the json and csv
probe calls after those returns are unreachable). -/
theorem c1_dispatch_counterexample :
    DatasetGrained.tryResourceUrl "geo" "http://x/data.json"
        = some { type := "solved", definition := "enable" } ∧
    DatasetGrained.tryResourceUrl "geo" "http://x/data.csv"
        = some { type := "solved", definition := "enable" } ∧
    "solved" ≠ "json-schema" ∧ "solved" ≠ "avro" :=
  ⟨by decide, by decide, by decide, by decide⟩

/-- C1, amended: when the structured probe yields nothing the dispatcher,
keyed on the url's extension, returns kind `"solved"` with definition
`"enable"` for both `.json` and `.csv` (the implemented json/csv content
probes being unreachable), kind `"xml"` for `.xml`, kind `"json-schema"`
with the fetched GeoJSON schema text for `.geojson`, and nothing
otherwise. -/
theorem c1_dispatch_amended (geojsonText url : String) :
    (jsEndsWith url ".json" = true →
      DatasetGrained.tryResourceUrl geojsonText url
        = some { type := "solved", definition := "enable" }) ∧
    (jsEndsWith url ".json" = false → jsEndsWith url ".csv" = true →
      DatasetGrained.tryResourceUrl geojsonText url
        = some { type := "solved", definition := "enable" }) ∧
    (jsEndsWith url ".json" = false → jsEndsWith url ".csv" = false →
     jsEndsWith url ".xml" = true →
      DatasetGrained.tryResourceUrl geojsonText url
        = some { type := "xml", definition := "xml" }) ∧
    (jsEndsWith url ".json" = false → jsEndsWith url ".csv" = false →
     jsEndsWith url ".xml" = false → jsEndsWith url ".geojson" = true →
      DatasetGrained.tryResourceUrl geojsonText url
        = some { type := "json-schema", definition := geojsonText }) ∧
    (jsEndsWith url ".json" = false → jsEndsWith url ".csv" = false →
     jsEndsWith url ".xml" = false → jsEndsWith url ".geojson" = false →
      DatasetGrained.tryResourceUrl geojsonText url = none) := by
  unfold DatasetGrained.tryResourceUrl
  refine ⟨?_, ?_, ?_, ?_, ?_⟩ <;> intros <;> simp_all

/-- C1, witness for the amended theorem at concrete urls. -/
theorem c1_dispatch_amended_witness :
    (jsEndsWith "a.json" ".json" = true ∧
      DatasetGrained.tryResourceUrl "G" "a.json"
        = some { type := "solved", definition := "enable" }) ∧
    (jsEndsWith "a.geojson" ".geojson" = true ∧
      DatasetGrained.tryResourceUrl "G" "a.geojson"
        = some { type := "json-schema", definition := "G" }) :=
  ⟨⟨by decide, (c1_dispatch_amended "G" "a.json").1 (by decide)⟩,
   ⟨by decide, (c1_dispatch_amended "G" "a.geojson").2.2.2.1
      (by decide) (by decide) (by decide) (by decide)⟩⟩

/-! ## Claim C5: providesApis matches the produced Api names -/

/-- C5: for every dataset (under any probe oracles) the Component's
`providesApis` list is exactly the list of `metadata.name` values of the
Api entities built for that dataset — one Api per resource, named by the
resource id. -/
theorem c5_providesApis_matches_api_names
    (datastoreInfo resourceProbe : String → Except String (Option SchemaInfo))
    (dataset : DatasetShow) :
    (DatasetGrained.createComponent dataset).spec.providesApis =
      some ((DatasetGrained.createApis datastoreInfo resourceProbe dataset).map
        (fun api => api.metadata.name)) := by
  simp [DatasetGrained.createComponent, DatasetGrained.createApis, List.map_map,
    Function.comp]

/-! ## Claim C10: empty resource names fall back to the url in titles -/

/-- C10: in every Api builder (both data.gov.lv providers) and in the
resource-grained Component builder, the title is the resource url exactly
when the resource name is empty, and the resource name otherwise. -/
theorem c10_title_falls_back_to_url
    (datastoreInfo resourceProbe datastoreInfo2 : String → Except String (Option SchemaInfo))
    (dataset : DatasetShow) :
    ((DatasetGrained.createApis datastoreInfo resourceProbe dataset).map
        (fun api => api.metadata.title) =
      dataset.result.resources.map
        (fun r => some (if r.name = "" then r.url else r.name))) ∧
    ((ResourceGrained.createApis datastoreInfo2 dataset).map
        (fun api => api.metadata.title) =
      dataset.result.resources.map
        (fun r => some (if r.name = "" then r.url else r.name))) ∧
    ((ResourceGrained.createComponents dataset).map
        (fun comp => comp.metadata.title) =
      dataset.result.resources.map
        (fun r => some (if r.name = "" then r.url else r.name))) := by
  refine ⟨?_, ?_, ?_⟩ <;>
    simp [DatasetGrained.createApis, ResourceGrained.createApis,
      ResourceGrained.createComponents, List.map_map, Function.comp]

/-! ## Claim C7: lifecycle derivation -/

/-- C7, counterexample.  The api.viss.gov.lv Component for a record in
lifecycle state `"PUBLISHED"` gets `lifecycle = "production"` although its
state field does not equal `"active"`: that provider compares
`lifeCycleStatus` against `"PUBLISHED"`, so the claimed iff against
`"active"` fails. -/
theorem c7_lifecycle_counterexample :
    (ApiViss.transformToComponent publishedApi).spec.lifecycle = some "production" ∧
    publishedApi.lifeCycleStatus ≠ "active" :=
  ⟨rfl, by decide⟩

/-- C7, amended: entities of the two data.gov.lv providers carry
`lifecycle = "production"` iff the source state field equals `"active"`
(else `"experimental"`); entities of the api.viss.gov.lv provider carry
`lifecycle = "production"` iff the source `lifeCycleStatus` field equals
`"PUBLISHED"` (else `"experimental"`). -/
theorem c7_lifecycle_amended
    (datastoreInfo resourceProbe datastoreInfo2 : String → Except String (Option SchemaInfo))
    (dataset : DatasetShow) (api : ApiViss.ApiDefinition) :
    ((DatasetGrained.createApis datastoreInfo resourceProbe dataset).map
        (fun a => a.spec.lifecycle) =
      dataset.result.resources.map
        (fun r => some (if r.state = "active" then "production" else "experimental"))) ∧
    ((DatasetGrained.createComponent dataset).spec.lifecycle =
      some (if dataset.result.state = "active" then "production" else "experimental")) ∧
    ((ResourceGrained.createApis datastoreInfo2 dataset).map
        (fun a => a.spec.lifecycle) =
      dataset.result.resources.map
        (fun r => some (if r.state = "active" then "production" else "experimental"))) ∧
    ((ResourceGrained.createComponents dataset).map
        (fun c => c.spec.lifecycle) =
      dataset.result.resources.map
        (fun r => some (if r.state = "active" then "production" else "experimental"))) ∧
    ((ApiViss.transformToComponent api).spec.lifecycle =
      some (if api.lifeCycleStatus = "PUBLISHED" then "production" else "experimental")) ∧
    ((ApiViss.transformToApi api).spec.lifecycle =
      some (if api.lifeCycleStatus = "PUBLISHED" then "production" else "experimental")) := by
  refine ⟨?_, rfl, ?_, ?_, rfl, rfl⟩ <;>
    simp [DatasetGrained.createApis, ResourceGrained.createApis,
      ResourceGrained.createComponents, List.map_map, Function.comp]

/-! ## Claim C6: tag normalization -/

/-- Lowercasing a character twice is the same as lowercasing it once. -/
theorem char_toLower_idem (c : Char) : c.toLower.toLower = c.toLower := by
  unfold Char.toLower
  by_cases h : c.toNat ≥ 65 ∧ c.toNat ≤ 90
  · rw [if_pos h]
    have hv : (Char.ofNat (c.toNat + 32)).toNat = c.toNat + 32 := by
      unfold Char.ofNat
      rw [dif_pos (Or.inl (by omega))]
      simp [Char.toNat, Char.ofNatAux, UInt32.toNat, UInt32.ofNat']
    rw [if_neg (by omega)]
  · rw [if_neg h, if_neg h]

/-- The JS lowercasing of a string is idempotent. -/
theorem jsToLowerCase_idem (s : String) : jsToLowerCase (jsToLowerCase s) = jsToLowerCase s := by
  unfold jsToLowerCase
  refine congrArg String.mk ?_
  rw [List.map_map]
  exact List.map_congr_left (fun c _ => char_toLower_idem c)

/-- Elements of a `Set`-style fold come from the accumulator or the list. -/
theorem foldl_insertDedup_mem (xs : List String) :
    ∀ (acc : List String) (x : String), x ∈ xs.foldl insertDedup acc → x ∈ acc ∨ x ∈ xs := by
  induction xs with
  | nil => exact fun acc x h => Or.inl h
  | cons a rest ih =>
    intro acc x h
    rcases ih (insertDedup acc a) x h with hacc | hrest
    · unfold insertDedup at hacc
      by_cases hmem : a ∈ acc
      · rw [if_pos hmem] at hacc
        exact Or.inl hacc
      · rw [if_neg hmem] at hacc
        rcases List.mem_append.1 hacc with h1 | h2
        · exact Or.inl h1
        · simp only [List.mem_singleton] at h2
          subst h2
          exact Or.inr (List.mem_cons_self _ _)
    · exact Or.inr (List.mem_cons_of_mem _ hrest)

/-- A `Set`-style fold preserves duplicate-freeness of the accumulator. -/
theorem foldl_insertDedup_nodup (xs : List String) :
    ∀ acc : List String, acc.Nodup → (xs.foldl insertDedup acc).Nodup := by
  induction xs with
  | nil => exact fun acc h => h
  | cons a rest ih =>
    intro acc h
    apply ih
    unfold insertDedup
    by_cases hmem : a ∈ acc
    · rw [if_pos hmem]; exact h
    · rw [if_neg hmem]
      simp [List.nodup_append, h, hmem]

/-- Spreading a JS `Set` produces a duplicate-free list. -/
theorem jsSetDedup_nodup (xs : List String) : (jsSetDedup xs).Nodup :=
  foldl_insertDedup_nodup xs [] List.nodup_nil

/-- Spreading a JS `Set` produces a sublist of the original elements. -/
theorem mem_jsSetDedup (x : String) (xs : List String) (h : x ∈ jsSetDedup xs) : x ∈ xs := by
  rcases foldl_insertDedup_mem xs [] x h with h0 | h1
  · simp at h0
  · exact h1

/-- The tag list built by the data.gov.lv builders — lowercase each declared
tag name, then deduplicate — is duplicate-free and all-lowercase. -/
theorem builtTags_ok (tags : List TagRec) :
    (jsSetDedup (tags.map (fun tag => jsToLowerCase tag.name))).Nodup ∧
    ∀ t ∈ jsSetDedup (tags.map (fun tag => jsToLowerCase tag.name)), jsToLowerCase t = t := by
  refine ⟨jsSetDedup_nodup _, fun t ht => ?_⟩
  rcases List.mem_map.1 (mem_jsSetDedup _ _ ht) with ⟨tag, _, rfl⟩
  exact jsToLowerCase_idem tag.name

/-- C6, counterexample.  The api.viss.gov.lv Component copies the upstream
tag list verbatim: for a record with tags `["Open Data", "Open Data"]` the
entity's tags are neither duplicate-free nor lowercase. -/
theorem c6_tags_counterexample :
    (ApiViss.transformToComponent publishedApi).metadata.tags
        = some ["Open Data", "Open Data"] ∧
    ¬ (["Open Data", "Open Data"] : List String).Nodup ∧
    jsToLowerCase "Open Data" ≠ "Open Data" :=
  ⟨rfl, by decide, by decide⟩

/-- C6, amended: entities built by the two data.gov.lv providers carry
duplicate-free, all-lowercase tag lists (Component of the dataset-grained
provider; Components and System of the resource-grained provider), but the
api.viss.gov.lv Component's tags are the upstream record's tags verbatim,
with no lowercasing or deduplication. -/
theorem c6_tags_amended (dataset : DatasetShow) (api : ApiViss.ApiDefinition) :
    (∀ ts, (DatasetGrained.createComponent dataset).metadata.tags = some ts →
        ts.Nodup ∧ ∀ t ∈ ts, jsToLowerCase t = t) ∧
    (∀ e ∈ ResourceGrained.createComponents dataset,
      ∀ ts, e.metadata.tags = some ts →
        ts.Nodup ∧ ∀ t ∈ ts, jsToLowerCase t = t) ∧
    (∀ ts, (ResourceGrained.createSystem dataset).metadata.tags = some ts →
        ts.Nodup ∧ ∀ t ∈ ts, jsToLowerCase t = t) ∧
    (ApiViss.transformToComponent api).metadata.tags = some api.tags := by
  refine ⟨?_, ?_, ?_, rfl⟩
  · intro ts hts
    simp only [DatasetGrained.createComponent, Option.some.injEq] at hts
    subst hts
    exact builtTags_ok dataset.result.tags
  · intro e he ts hts
    simp only [ResourceGrained.createComponents, List.mem_map] at he
    rcases he with ⟨resource, _, rfl⟩
    simp only [Option.some.injEq] at hts
    subst hts
    exact builtTags_ok dataset.result.tags
  · intro ts hts
    simp only [ResourceGrained.createSystem, Option.some.injEq] at hts
    subst hts
    exact builtTags_ok dataset.result.tags

/-- C6, witness for the amended theorem: the sample dataset's declared tags
`["Alpha", "alpha"]` become the single lowercase tag `["alpha"]`, and the
sample api.viss.gov.lv record keeps its raw tags. -/
theorem c6_tags_amended_witness :
    ((DatasetGrained.createComponent sampleDataset).metadata.tags = some ["alpha"] ∧
      (["alpha"] : List String).Nodup) ∧
    (ApiViss.transformToComponent publishedApi).metadata.tags
        = some ["Open Data", "Open Data"] :=
  ⟨⟨by decide, ((c6_tags_amended sampleDataset publishedApi).1 ["alpha"] (by decide)).1⟩,
   (c6_tags_amended sampleDataset publishedApi).2.2.2⟩

/-! ## Claim C9: byte-order-mark detection for .json resources -/

/-- C9: when the json content probe succeeds, bytes starting `FF FE` give
`hasBom = true` and `charset = "utf-16"`; bytes starting `EF BB BF` give
`hasBom = true` and `charset = "utf-8-sig"`; any other leading bytes give
`hasBom = false`. -/
theorem c9_bom_detection (decodeUtf16 decodeUtf8 : List Nat → String)
    (generateSchema : String → Except String String)
    (data : List Nat) (info : SchemaInfo)
    (hres : DatasetGrained.tryResourceJsonUrl decodeUtf16 decodeUtf8 generateSchema 200 data
        = .ok (some info)) :
    ((data.get? 0 = some 255 ∧ data.get? 1 = some 254) →
      info.hasBom = some true ∧ info.charset = some "utf-16") ∧
    (¬(data.get? 0 = some 255 ∧ data.get? 1 = some 254) →
     (data.get? 0 = some 0xef ∧ data.get? 1 = some 0xbb ∧ data.get? 2 = some 0xbf) →
      info.hasBom = some true ∧ info.charset = some "utf-8-sig") ∧
    (¬(data.get? 0 = some 255 ∧ data.get? 1 = some 254) →
     ¬(data.get? 0 = some 0xef ∧ data.get? 1 = some 0xbb ∧ data.get? 2 = some 0xbf) →
      info.hasBom = some false) := by
  unfold DatasetGrained.tryResourceJsonUrl at hres
  simp only [ne_eq, not_true_eq_false, if_false, ite_false, reduceIte] at hres
  refine ⟨fun h1 => ?_, fun h1 h2 => ?_, fun h1 h2 => ?_⟩
  · rw [if_pos h1] at hres
    cases hgen : generateSchema (decodeUtf16 (data.drop 2)) with
    | error e => rw [hgen] at hres; cases hres
    | ok defn =>
      rw [hgen] at hres
      cases hres
      exact ⟨rfl, rfl⟩
  · rw [if_neg h1, if_pos h2] at hres
    cases hgen : generateSchema (decodeUtf8 (data.drop 3)) with
    | error e => rw [hgen] at hres; cases hres
    | ok defn =>
      rw [hgen] at hres
      cases hres
      exact ⟨rfl, rfl⟩
  · rw [if_neg h1, if_neg h2] at hres
    cases hgen : generateSchema (decodeUtf8 data) with
    | error e => rw [hgen] at hres; cases hres
    | ok defn =>
      rw [hgen] at hres
      cases hres
      exact rfl

/-- C9, witness: a UTF-16 marked byte array probed with trivial decode and
schema oracles yields `hasBom = true`, `charset = "utf-16"`. -/
theorem c9_bom_detection_witness :
    (DatasetGrained.tryResourceJsonUrl (fun _ => "") (fun _ => "")
        (fun _ => Except.ok "S") 200 [255, 254, 65]
      = .ok (some { type := "json-schema", definition := "S",
                    hasBom := some true, charset := some "utf-16" })) ∧
    ({ type := "json-schema", definition := "S",
       hasBom := some true, charset := some "utf-16" } : SchemaInfo).hasBom = some true ∧
    ({ type := "json-schema", definition := "S",
       hasBom := some true, charset := some "utf-16" } : SchemaInfo).charset = some "utf-16" :=
  ⟨rfl,
   (c9_bom_detection (fun _ => "") (fun _ => "") (fun _ => Except.ok "S") [255, 254, 65]
      { type := "json-schema", definition := "S",
        hasBom := some true, charset := some "utf-16" } rfl).1 ⟨rfl, rfl⟩⟩

/-! ## Run lifecycle helpers -/

/-- A fetch oracle that always returns the sample dataset. -/
def sampleFetch : String → Except String DatasetShow := fun _ => Except.ok sampleDataset

/-- A fetch oracle that succeeds for the identifier `"a"` and rejects for
every other identifier. -/
def failingFetch : String → Except String DatasetShow :=
  fun name => if name = "a" then .ok sampleDataset else .error "network failure"

/-- When connected, the listing succeeded and every detail fetch succeeded,
a run publishes the completion-ordered deltas followed by the single full
mutation over the discovery-ordered entity set. -/
theorem runMutations_eq (env : String)
    (datastoreInfo resourceProbe : String → Except String (Option SchemaInfo))
    (names : List String) (fetchDataset : String → Except String DatasetShow)
    (datasets completion : List DatasetShow)
    (hfetch : promiseAll (names.map fetchDataset) = .ok datasets) :
    DatasetGrained.runMutations env datastoreInfo resourceProbe
        (.ok names) fetchDataset true completion =
      .ok (completion.map (DatasetGrained.deltaMutation env datastoreInfo resourceProbe) ++
        [.full (DatasetGrained.withLocation env
          (DatasetGrained.applyDatasetEntities datastoreInfo resourceProbe datasets))]) := by
  unfold DatasetGrained.runMutations
  simp only [hfetch]
  rfl

/-- A rejected element makes the modelled `Promise.all` reject. -/
theorem promiseAll_error {α : Type} :
    ∀ (l : List (Except String α)) (i : Nat) (e : String),
      l.get? i = some (.error e) → ∃ e', promiseAll l = .error e' := by
  intro l
  induction l with
  | nil => intro i e h; simp at h
  | cons x rest ih =>
    intro i e h
    cases x with
    | error e0 => exact ⟨e0, rfl⟩
    | ok a =>
      cases i with
      | zero => simp at h
      | succ n =>
        rcases ih n e h with ⟨e', he'⟩
        refine ⟨e', ?_⟩
        show (promiseAll rest).map (a :: ·) = .error e'
        rw [he']
        rfl

/-! ## Claim C2: delta stream followed by one terminating full -/

/-- C2: a successful run (connected, listing ok, all detail fetches ok,
deltas emitted in any completion order of the accepted datasets) publishes
exactly one delta per accepted dataset — every mutation before the last is
a delta, and the deltas are a permutation of the accepted datasets' entity
sets — followed by exactly one terminating full whose entities are the
accumulated per-dataset lists concatenated in the original discovery order,
not the completion order. -/
theorem c2_mutation_lifecycle (env : String)
    (datastoreInfo resourceProbe : String → Except String (Option SchemaInfo))
    (names : List String) (fetchDataset : String → Except String DatasetShow)
    (datasets completion : List DatasetShow)
    (hfetch : promiseAll (names.map fetchDataset) = .ok datasets)
    (hperm : completion.Perm (DatasetGrained.acceptedDatasets datasets)) :
    ∃ ms, DatasetGrained.runMutations env datastoreInfo resourceProbe
            (.ok names) fetchDataset true completion = .ok ms ∧
      ms.getLast? = some (.full (DatasetGrained.withLocation env
        (((DatasetGrained.acceptedDatasets datasets).map
          (DatasetGrained.datasetEntities datastoreInfo resourceProbe)).flatten))) ∧
      (∀ m ∈ ms.dropLast, ∃ added, m = .delta added) ∧
      ms.dropLast.Perm ((DatasetGrained.acceptedDatasets datasets).map
        (DatasetGrained.deltaMutation env datastoreInfo resourceProbe)) ∧
      ms.dropLast.length = (DatasetGrained.acceptedDatasets datasets).length := by
  refine ⟨_, runMutations_eq env datastoreInfo resourceProbe names fetchDataset
    datasets completion hfetch, ?_, ?_, ?_, ?_⟩
  · rw [List.getLast?_concat]
    rfl
  · rw [List.dropLast_concat]
    intro m hm
    rcases List.mem_map.1 hm with ⟨d, _, rfl⟩
    exact ⟨_, rfl⟩
  · rw [List.dropLast_concat]
    exact hperm.map _
  · rw [List.dropLast_concat, List.length_map]
    exact hperm.length_eq

/-- C2, witness at a one-dataset run. -/
theorem c2_mutation_lifecycle_witness :
    promiseAll (["a"].map sampleFetch) = .ok [sampleDataset] ∧
    [sampleDataset].Perm (DatasetGrained.acceptedDatasets [sampleDataset]) ∧
    (∃ ms, DatasetGrained.runMutations "production" noSchema noSchema
            (.ok ["a"]) sampleFetch true [sampleDataset] = .ok ms ∧
      ms.getLast? = some (.full (DatasetGrained.withLocation "production"
        (((DatasetGrained.acceptedDatasets [sampleDataset]).map
          (DatasetGrained.datasetEntities noSchema noSchema)).flatten))) ∧
      (∀ m ∈ ms.dropLast, ∃ added, m = .delta added) ∧
      ms.dropLast.Perm ((DatasetGrained.acceptedDatasets [sampleDataset]).map
        (DatasetGrained.deltaMutation "production" noSchema noSchema)) ∧
      ms.dropLast.length = (DatasetGrained.acceptedDatasets [sampleDataset]).length) :=
  ⟨rfl, by decide,
   c2_mutation_lifecycle "production" noSchema noSchema ["a"] sampleFetch
     [sampleDataset] [sampleDataset] rfl (by decide)⟩

/-! ## Claim C3: error containment boundaries -/

/-- C3, counterexample.  With identifiers `["a", "b"]` where the detail
fetch of `"b"` rejects, the whole run aborts with that rejection — the
failure of a single dataset's detail fetch is not converted to a degraded
result and the sibling dataset `"a"` is not processed, contradicting the
claimed per-dataset containment. -/
theorem c3_containment_counterexample :
    DatasetGrained.runMutations "production" noSchema noSchema (.ok ["a", "b"])
        failingFetch true [] = .error "network failure" := rfl

/-- C3, amended: a failure of a single resource's schema probe is caught
and converted to an error-kind typed result (a missing schema to an
unknown-kind result) and never aborts — with all detail fetches succeeding
the run publishes successfully whatever the resource oracles do; but a
dataset detail fetch failure is not caught at the per-dataset boundary: the
joint `Promise.all` over detail fetches rejects and the run aborts, in
addition to the discovery-listing failure and the not-connected
precondition. -/
theorem c3_containment_amended (env : String)
    (datastoreInfo resourceProbe : String → Except String (Option SchemaInfo)) :
    (∀ names fetchDataset datasets completion,
        promiseAll (names.map fetchDataset) = .ok datasets →
        ∃ ms, DatasetGrained.runMutations env datastoreInfo resourceProbe
          (.ok names) fetchDataset true completion = .ok ms) ∧
    (∀ e probe2, DatasetGrained.resolveSchemaInfo (.error e) probe2
        = { type := "error", definition := e }) ∧
    (∀ e, DatasetGrained.resolveSchemaInfo (.ok none) (.error e)
        = { type := "error", definition := e }) ∧
    (∀ names fetchDataset completion i e,
        (names.map fetchDataset).get? i = some (.error e) →
        ∃ e', DatasetGrained.runMutations env datastoreInfo resourceProbe
          (.ok names) fetchDataset true completion = .error e') ∧
    (∀ listing fetchDataset completion,
        DatasetGrained.runMutations env datastoreInfo resourceProbe
          listing fetchDataset false completion = .error "Not initialized") ∧
    (∀ e fetchDataset completion,
        DatasetGrained.runMutations env datastoreInfo resourceProbe
          (.error e) fetchDataset true completion = .error e) := by
  refine ⟨?_, fun e probe2 => rfl, fun e => rfl, ?_, fun listing fetchDataset completion => rfl,
    fun e fetchDataset completion => rfl⟩
  · intro names fetchDataset datasets completion hfetch
    exact ⟨_, runMutations_eq env datastoreInfo resourceProbe names fetchDataset
      datasets completion hfetch⟩
  · intro names fetchDataset completion i e hget
    rcases promiseAll_error (names.map fetchDataset) i e hget with ⟨e', he'⟩
    refine ⟨e', ?_⟩
    unfold DatasetGrained.runMutations
    simp only [he']
    rfl

/-- C3, witness for the amended theorem: a clean one-dataset run succeeds,
and the two-identifier run whose second detail fetch rejects aborts. -/
theorem c3_containment_amended_witness :
    promiseAll (["a"].map sampleFetch) = .ok [sampleDataset] ∧
    (∃ ms, DatasetGrained.runMutations "production" noSchema noSchema
        (.ok ["a"]) sampleFetch true [] = .ok ms) ∧
    (["a", "b"].map failingFetch).get? 1 = some (.error "network failure") ∧
    (∃ e', DatasetGrained.runMutations "production" noSchema noSchema
        (.ok ["a", "b"]) failingFetch true [] = .error e') :=
  ⟨rfl,
   (c3_containment_amended "production" noSchema noSchema).1 ["a"] sampleFetch
     [sampleDataset] [] rfl,
   rfl,
   (c3_containment_amended "production" noSchema noSchema).2.2.2.1 ["a", "b"]
     failingFetch [] 1 "network failure" rfl⟩

/-! ## Claim C8: non-dataset records are filtered, contributing nothing -/

/-- C8: a fetched record whose declared type is not `"dataset"` is dropped
by the filter, leaves the accepted list — and hence both every delta and
the full entity set — exactly as if it had not been fetched, and raises no
error: a run whose only record it is still succeeds, publishing a full
mutation with zero entities. -/
theorem c8_non_dataset_filtered
    (datastoreInfo resourceProbe : String → Except String (Option SchemaInfo))
    (pre post : List DatasetShow) (d : DatasetShow)
    (hd : d.result.type ≠ "dataset") :
    DatasetGrained.acceptedDatasets (pre ++ d :: post)
        = DatasetGrained.acceptedDatasets (pre ++ post) ∧
    DatasetGrained.applyDatasetEntities datastoreInfo resourceProbe (pre ++ d :: post)
        = DatasetGrained.applyDatasetEntities datastoreInfo resourceProbe (pre ++ post) ∧
    (∀ env names fetchDataset completion,
        promiseAll (names.map fetchDataset) = .ok (pre ++ d :: post) →
        ∃ ms, DatasetGrained.runMutations env datastoreInfo resourceProbe
          (.ok names) fetchDataset true completion = .ok ms) ∧
    (∀ env, DatasetGrained.runMutations env datastoreInfo resourceProbe
        (.ok ["b"]) (fun _ => .ok d) true []
      = .ok [.full (DatasetGrained.withLocation env
          (DatasetGrained.applyDatasetEntities datastoreInfo resourceProbe [d]))] ∧
      DatasetGrained.applyDatasetEntities datastoreInfo resourceProbe [d] = []) := by
  have hdb : (d.result.type == "dataset") = false := by
    simp [hd]
  have hacc : DatasetGrained.acceptedDatasets (pre ++ d :: post)
      = DatasetGrained.acceptedDatasets (pre ++ post) := by
    simp [DatasetGrained.acceptedDatasets, List.filter_append, List.filter_cons, hdb]
  have haccd : DatasetGrained.acceptedDatasets [d] = [] := by
    simp [DatasetGrained.acceptedDatasets, List.filter_cons, hdb]
  refine ⟨hacc, ?_, ?_, ?_⟩
  · unfold DatasetGrained.applyDatasetEntities
    rw [hacc]
  · intro env names fetchDataset completion hfetch
    exact ⟨_, runMutations_eq env datastoreInfo resourceProbe names fetchDataset
      (pre ++ d :: post) completion hfetch⟩
  · intro env
    have hempty : DatasetGrained.applyDatasetEntities datastoreInfo resourceProbe [d] = [] := by
      unfold DatasetGrained.applyDatasetEntities
      rw [haccd]
      rfl
    refine ⟨?_, hempty⟩
    have h := runMutations_eq env datastoreInfo resourceProbe ["b"] (fun _ => .ok d)
      [d] [] rfl
    simpa using h

/-- C8, witness: a run over the sample harvest-source record succeeds and
contributes zero entities (scenario B of the specification). -/
theorem c8_non_dataset_filtered_witness :
    harvestDataset.result.type ≠ "dataset" ∧
    DatasetGrained.applyDatasetEntities noSchema noSchema [harvestDataset] = [] ∧
    DatasetGrained.runMutations "production" noSchema noSchema (.ok ["b"])
        (fun _ => .ok harvestDataset) true [] = .ok [.full []] := by
  have h := c8_non_dataset_filtered noSchema noSchema [] [] harvestDataset (by decide)
  refine ⟨by decide, (h.2.2.2 "production").2, ?_⟩
  rw [(h.2.2.2 "production").1, (h.2.2.2 "production").2]
  rfl

/-! ## Claim C4: CSV delimiter sniffing -/

/-- When every remaining combination's parse throws, the sniff loop returns
the carried state with `foundOk = false`. -/
theorem sniffLoop_all_none (parse : DatasetGrained.CsvParseOracle) :
    ∀ opts : List DatasetGrained.TryOpts, (∀ o ∈ opts, parse o = none) →
      ∀ st, DatasetGrained.sniffLoop parse opts st = (st.1, st.2, false) := by
  intro opts
  induction opts with
  | nil => intro _ st; rfl
  | cons o rest ih =>
    intro h st
    have ho : parse o = none := h o (List.mem_cons_self _ _)
    simp only [DatasetGrained.sniffLoop, ho]
    exact ih (fun o' ho' => h o' (List.mem_cons_of_mem _ ho')) st

/-- The first combination whose parse yields more than one column wins: the
loop returns its delimiter, the typed fields and `foundOk = true`,
regardless of the carried state. -/
theorem sniffLoop_win (parse : DatasetGrained.CsvParseOracle) :
    ∀ (opts : List DatasetGrained.TryOpts) (i : Nat) (o : DatasetGrained.TryOpts)
      (headers : List String) (row : Option (List DatasetGrained.CsvCell)),
      opts.get? i = some o →
      parse o = some (headers, row) →
      1 < headers.length →
      (∀ j, j < i → ∀ o' hs r, opts.get? j = some o' → parse o' = some (hs, r) →
        hs.length = 1) →
      ∀ st, DatasetGrained.sniffLoop parse opts st
        = (o.delimiter, DatasetGrained.typedFields headers row, true) := by
  intro opts
  induction opts with
  | nil => intro i o headers row hget; simp at hget
  | cons head rest ih =>
    intro i o headers row hget hp hlen hprev st
    cases i with
    | zero =>
      injection hget with hget
      subst hget
      rcases headers with _ | ⟨a, _ | ⟨b, t⟩⟩
      · simp at hlen
      · simp at hlen
      · simp only [DatasetGrained.sniffLoop, hp]
    | succ n =>
      have hget' : rest.get? n = some o := hget
      cases hph : parse head with
      | none =>
        simp only [DatasetGrained.sniffLoop, hph]
        exact ih n o headers row hget' hp hlen
          (fun j hj o' hs r hg hp' =>
            hprev (j + 1) (Nat.succ_lt_succ hj) o' hs r hg hp') st
      | some pr =>
        obtain ⟨hs, r⟩ := pr
        have h1 : hs.length = 1 := hprev 0 (Nat.succ_pos n) head hs r rfl hph
        rcases hs with _ | ⟨hh, _ | ⟨h2, t⟩⟩
        · simp at h1
        · simp only [DatasetGrained.sniffLoop, hph]
          exact ih n o headers row hget' hp hlen
            (fun j hj o' hs' r' hg hp' =>
              hprev (j + 1) (Nat.succ_lt_succ hj) o' hs' r' hg hp') _
        · simp at h1

/-- When every successful parse yields exactly one column and the last
successful parse (at index `i`, all later combinations throwing) yields the
single header `h`, the loop returns the remembered single-field fallback
with `delimiter = "unknown"` and `foundOk = false`. -/
theorem sniffLoop_fallback (parse : DatasetGrained.CsvParseOracle) :
    ∀ (opts : List DatasetGrained.TryOpts) (i : Nat) (o : DatasetGrained.TryOpts)
      (h : String) (r : Option (List DatasetGrained.CsvCell)),
      opts.get? i = some o →
      parse o = some ([h], r) →
      (∀ j o' hs r', opts.get? j = some o' → parse o' = some (hs, r') →
        hs.length = 1) →
      (∀ j, i < j → ∀ o', opts.get? j = some o' → parse o' = none) →
      ∀ st, DatasetGrained.sniffLoop parse opts st
        = ("unknown", [{ name := h, type := "string" }], false) := by
  intro opts
  induction opts with
  | nil => intro i o h r hget; simp at hget
  | cons head rest ih =>
    intro i o h r hget hp hall hlater st
    cases i with
    | zero =>
      injection hget with hget
      subst hget
      simp only [DatasetGrained.sniffLoop, hp]
      have hnone : ∀ o' ∈ rest, parse o' = none := by
        intro o' ho'
        rcases List.mem_iff_get?.1 ho' with ⟨j, hj⟩
        exact hlater (j + 1) (Nat.succ_pos _) o' hj
      exact sniffLoop_all_none parse rest hnone _
    | succ n =>
      have hget' : rest.get? n = some o := hget
      cases hph : parse head with
      | none =>
        simp only [DatasetGrained.sniffLoop, hph]
        exact ih n o h r hget' hp
          (fun j o' hs r' hg hp' => hall (j + 1) o' hs r' hg hp')
          (fun j hj o' hg => hlater (j + 1) (Nat.succ_lt_succ hj) o' hg) st
      | some pr =>
        obtain ⟨hs, rr⟩ := pr
        have h1 : hs.length = 1 := hall 0 head hs rr rfl hph
        rcases hs with _ | ⟨hh, _ | ⟨h2, t⟩⟩
        · simp at h1
        · simp only [DatasetGrained.sniffLoop, hph]
          exact ih n o h r hget' hp
            (fun j o' hs' r' hg hp' => hall (j + 1) o' hs' r' hg hp')
            (fun j hj o' hg => hlater (j + 1) (Nat.succ_lt_succ hj) o' hg) _
        · simp at h1

/-- C4: the sniff is the deterministic function `csvSniff` over the fixed
combination list; the first combination (in list order) parsing to more
than one column wins with its delimiter and sample-typed fields; when every
successful parse has exactly one column the remembered single-field
fallback is used with `foundOk = false`; column types come from the sample
row — integral numeric gives `long`, other numeric gives `double`,
anything else (including a missing sample row) gives `string`; and the
combination list is exactly the eight delimiter/quote-mode pairs in the
claimed priority order. -/
theorem c4_csv_sniffing_order (parse : DatasetGrained.CsvParseOracle) :
    (∀ i o headers row,
      DatasetGrained.tryOptionsList.get? i = some o →
      parse o = some (headers, row) →
      1 < headers.length →
      (∀ j, j < i → ∀ o' hs r, DatasetGrained.tryOptionsList.get? j = some o' →
        parse o' = some (hs, r) → hs.length = 1) →
      DatasetGrained.csvSniff parse
        = (o.delimiter, DatasetGrained.typedFields headers row, true)) ∧
    (∀ i o h r,
      DatasetGrained.tryOptionsList.get? i = some o →
      parse o = some ([h], r) →
      (∀ j o' hs r', DatasetGrained.tryOptionsList.get? j = some o' →
        parse o' = some (hs, r') → hs.length = 1) →
      (∀ j, i < j → ∀ o', DatasetGrained.tryOptionsList.get? j = some o' →
        parse o' = none) →
      DatasetGrained.csvSniff parse
        = ("unknown", [{ name := h, type := "string" }], false)) ∧
    (∀ index, DatasetGrained.cellType none index = "string") ∧
    (∀ r index n, r.get? index = some (.intVal n) →
      DatasetGrained.cellType (some r) index = "long") ∧
    (∀ r index lit, r.get? index = some (.numVal lit) →
      DatasetGrained.cellType (some r) index = "double") ∧
    (∀ r index s, r.get? index = some (.strVal s) →
      DatasetGrained.cellType (some r) index = "string") ∧
    (∀ r index, r.get? index = none →
      DatasetGrained.cellType (some r) index = "string") ∧
    DatasetGrained.tryOptionsList =
      [ { delimiter := ";", relax_quotes := false },
        { delimiter := ",", relax_quotes := false },
        { delimiter := "|", relax_quotes := false },
        { delimiter := "\t", relax_quotes := false },
        { delimiter := ";", relax_quotes := true },
        { delimiter := ",", relax_quotes := true },
        { delimiter := "|", relax_quotes := true },
        { delimiter := "\t", relax_quotes := true } ] := by
  refine ⟨?_, ?_, fun index => rfl, ?_, ?_, ?_, ?_, rfl⟩
  · intro i o headers row hget hp hlen hprev
    exact sniffLoop_win parse DatasetGrained.tryOptionsList i o headers row
      hget hp hlen hprev _
  · intro i o h r hget hp hall hlater
    exact sniffLoop_fallback parse DatasetGrained.tryOptionsList i o h r
      hget hp hall hlater _
  · intro r index n hg
    rw [List.get?_eq_getElem?] at hg
    simp [DatasetGrained.cellType, hg]
  · intro r index lit hg
    rw [List.get?_eq_getElem?] at hg
    simp [DatasetGrained.cellType, hg]
  · intro r index s hg
    rw [List.get?_eq_getElem?] at hg
    simp [DatasetGrained.cellType, hg]
  · intro r index hg
    rw [List.get?_eq_getElem?] at hg
    simp [DatasetGrained.cellType, hg]

/-- A parse oracle where only the first combination (`";"`, strict quotes)
succeeds, with a two-column header and a sample row typing the first column
integral and the second textual. -/
def winningParse : DatasetGrained.CsvParseOracle :=
  fun o =>
    if o = { delimiter := ";", relax_quotes := false } then
      some (["id", "name"], some [.intVal 1, .strVal "x"])
    else
      none

/-- C4, witness: on the winning-first oracle the sniff selects the `";"`
delimiter with fields `id : long` and `name : string` (scenario A's
resource content `"id;name\n1;x"`). -/
theorem c4_csv_sniffing_order_witness :
    DatasetGrained.tryOptionsList.get? 0
        = some { delimiter := ";", relax_quotes := false } ∧
    winningParse { delimiter := ";", relax_quotes := false }
        = some (["id", "name"], some [.intVal 1, .strVal "x"]) ∧
    DatasetGrained.csvSniff winningParse
        = (";", [{ name := "id", type := "long" },
                 { name := "name", type := "string" }], true) := by
  refine ⟨rfl, rfl, ?_⟩
  have h := (c4_csv_sniffing_order winningParse).1 0
    { delimiter := ";", relax_quotes := false }
    ["id", "name"] (some [.intVal 1, .strVal "x"]) rfl rfl (by decide)
    (fun j hj => absurd hj (Nat.not_lt_zero j))
  rw [h]
  rfl

end OpenstageLv
